import Mathlib

/-!
Shallow embedding of the fastcs-secop SECoP client core:
`src/fastcs_secop/_util.py`, `src/fastcs_secop/io.py` and
`src/fastcs_secop/controllers.py`.

Modelling conventions:
* Python numbers (int and float) are modelled as rationals; machine floats
  are not used anywhere in the development.
* `dict` payloads are modelled as structures holding exactly the keys the
  code reads; a key the code accesses with `d[k]` on a possibly-absent field
  goes through an explicit `Except`-raising accessor (KeyError), while
  `d.get(k, default)` becomes `Option.getD`.
* Fallible Python code is modelled with `Except PyExc`; the exception class
  hierarchy is flattened into the `PyExc` sum below.
* Quote characters inside Python error-message literals are elided.
-/

namespace FastcsSecop

/-- Python exception classes raised (or caught) by the embedded code.
`connectionError` stands for `ConnectionError` and its subclasses; all
constructors are instances of Python `Exception`. -/
inductive PyExc where
  | connectionError
  | secopError (msg : String)
  | valueError (msg : String)
  | typeError (msg : String)
  | keyError (key : String)
  | attributeError (msg : String)
  | overflowError
  | zeroDivisionError
  | assertionError
deriving DecidableEq

/-- JSON values as returned by `json.loads`; numbers are modelled as exact
rationals. -/
inductive Json where
  | null
  | bool (b : Bool)
  | num (q : ℚ)
  | str (s : String)
  | arr (elems : List Json)
  | obj (fields : List (String × Json))

/-- Whitespace characters stripped by Python `str.strip()`. -/
def isWs (c : Char) : Bool :=
  c == ' ' || c == '\t' || c == '\n' || c == '\r' || c == '\x0b' || c == '\x0c'

/-- Model of Python `str.strip()` on the character list. -/
def pyStripList (cs : List Char) : List Char :=
  ((cs.dropWhile isWs).reverse.dropWhile isWs).reverse

/-- Model of Python `str.strip()`. -/
def pyStrip (s : String) : String := ⟨pyStripList s.data⟩

/-- Boolean test that the first list is a prefix of the second. -/
def listIsPrefix : List Char → List Char → Bool
  | [], _ => true
  | _ :: _, [] => false
  | a :: as, b :: bs => a == b && listIsPrefix as bs

/-- Model of Python `str.startswith`. -/
def pyStartswith (s pat : String) : Bool := listIsPrefix pat.data s.data

/-- Model of Python `str.endswith`. -/
def pyEndswith (s pat : String) : Bool := listIsPrefix pat.data.reverse s.data.reverse

/-- Model of the Python slice `s[n:]`. -/
def pyDropLeft (s : String) (n : ℕ) : String := ⟨s.data.drop n⟩

/-- Model of the Python slice `s[2:-1]` used by `format_string_to_prec`. -/
def pySliceTwoToLast (s : String) : String := ⟨(s.data.drop 2).dropLast⟩

/-- Model of the Python slice `s[:n]` (`n = none` meaning no limit), as used
for `description[:max_description_length]`. -/
def pyTake (n : Option ℕ) (s : String) : String :=
  match n with
  | none => s
  | some k => ⟨s.data.take k⟩

/-- Numeric value of a list of decimal digit characters. -/
def digitsToNat (ds : List Char) : ℕ :=
  ds.foldl (fun a c => 10 * a + (c.toNat - '0'.toNat)) 0

/-- Value of a nonempty all-digit character list, `none` otherwise. -/
def digitsVal (ds : List Char) : Option ℕ :=
  if ds ≠ [] ∧ ds.all Char.isDigit then some (digitsToNat ds) else none

/-- Model of Python `int(s)`: optional surrounding whitespace, an optional
sign and a nonempty digit run (digit-group underscores and non-ASCII digits
are not modelled). `none` models the `ValueError` that `int` raises. -/
def pyInt (s : String) : Option ℤ :=
  let cs := pyStripList s.data
  if cs.head? = some '-' then (digitsVal cs.tail).map (fun n => -(n : ℤ))
  else if cs.head? = some '+' then (digitsVal cs.tail).map (fun n => (n : ℤ))
  else (digitsVal cs).map (fun n => (n : ℤ))

/-- Model of Python `round` on a rational: round half to even. -/
def pyRound (q : ℚ) : ℤ :=
  let f := ⌊q⌋
  if q - f < 1 / 2 then f
  else if q - f > 1 / 2 then f + 1
  else if f % 2 = 0 then f else f + 1

/-- Truncation toward zero, as used by numpy integer casts from floats. -/
def ratTrunc (q : ℚ) : ℤ := if 0 ≤ q then ⌊q⌋ else -⌊-q⌋

/-- Model of Python `s.split(",")`: auxiliary recursion over characters with
an accumulator for the current field. -/
def splitCommaAux : List Char → List Char → List String
  | [], acc => [⟨acc.reverse⟩]
  | c :: rest, acc =>
      if c = ',' then ⟨acc.reverse⟩ :: splitCommaAux rest []
      else splitCommaAux rest (c :: acc)

/-- Model of Python `s.split(",")`. -/
def pySplitComma (s : String) : List String := splitCommaAux s.data []

/-- Accessor modelling Python `d[k]` on a possibly-missing key: raises
`KeyError` when the key is absent. -/
def need {α : Type} (o : Option α) (key : String) : Except PyExc α :=
  match o with
  | some a => .ok a
  | none => .error (.keyError key)

/-- Numpy scalar dtypes produced by `secop_dtype_to_numpy_dtype`
(`np.float64`, `np.int32`, `np.uint8` and the fixed-width little-endian
unicode dtypes `<U{n}`). -/
inductive NpDtype where
  | float64
  | int32
  | uint8
  | fixedStr (width : ℕ)
deriving DecidableEq

/-- Scalar cells of a numpy array or structured record. -/
inductive Scalar where
  | f (q : ℚ)
  | i (n : ℤ)
  | s (v : String)
deriving DecidableEq

/-- Zero value that `np.zeros` puts into a cell of the given dtype. -/
def zeroScalar : NpDtype → Scalar
  | .float64 => .f 0
  | .int32 => .i 0
  | .uint8 => .i 0
  | .fixedStr _ => .s ""

/-- Model of numpy coercion of one parsed-JSON cell into an array cell of
the given dtype. Out-of-range integers raise (as numpy >= 2 does); strings
into numeric cells, numbers into string cells and nested containers are
modelled as errors (no accessible code path exercises them). -/
def coerceScalar (dt : NpDtype) (j : Json) : Except PyExc Scalar :=
  match dt, j with
  | .float64, .num q => .ok (.f q)
  | .float64, .bool b => .ok (.f (if b then 1 else 0))
  | .int32, .num q =>
      let n := ratTrunc q
      if -(2 ^ 31) ≤ n ∧ n < 2 ^ 31 then .ok (.i n) else .error .overflowError
  | .int32, .bool b => .ok (.i (if b then 1 else 0))
  | .uint8, .num q =>
      let n := ratTrunc q
      if 0 ≤ n ∧ n < 256 then .ok (.i n) else .error .overflowError
  | .uint8, .bool b => .ok (.i (if b then 1 else 0))
  | .fixedStr w, .str v => .ok (.s ⟨v.data.take w⟩)
  | _, _ => .error (.valueError "could not convert value to array cell dtype")

/-- The `datainfo` dictionary of a member nested inside an `array`, `tuple`
or `struct` datainfo: `secop_dtype_to_numpy_dtype` reads only its `type`
and (optional) `maxchars` keys. -/
structure InnerDatainfo where
  type : String
  maxchars : Option ℕ := none
deriving DecidableEq

/-- The SECoP `datainfo` dictionary of an accessible, with exactly the keys
the code reads. The single Python `members` key is split into one typed
field per datainfo kind that uses it (enum: name-to-ordinal map; array: one
member datainfo; tuple: ordered member datainfos; struct: named member
datainfos). -/
structure Datainfo where
  type : String
  scale : Option ℚ := none
  min : Option ℚ := none
  max : Option ℚ := none
  unit : Option String := none
  fmtstr : Option String := none
  maxbytes : Option ℕ := none
  maxlen : Option ℕ := none
  maxchars : Option ℕ := none
  enumMembers : List (String × ℤ) := []
  arrayMember : Option InnerDatainfo := none
  tupleMembers : List InnerDatainfo := []
  structMembers : List (String × InnerDatainfo) := []

/-- Model of `_util.format_string_to_prec`: `None` passes through; a string
that starts with the two characters percent-dot and ends with the letter f
yields `int` of the middle slice (which may raise `ValueError`); anything
else yields `None`. -/
def format_string_to_prec (fmt : Option String) : Except PyExc (Option ℤ) :=
  match fmt with
  | none => .ok none
  | some s =>
      if pyStartswith s "%." && pyEndswith s "f" then
        match pyInt (pySliceTwoToLast s) with
        | some n => .ok (some n)
        | none => .error (.valueError "invalid literal for int with base 10")
      else .ok none

/-- Model of `_util.secop_dtype_to_numpy_dtype`. -/
def secop_dtype_to_numpy_dtype (d : InnerDatainfo) : Except PyExc NpDtype :=
  if d.type = "double" then .ok .float64
  else if d.type = "int" then .ok .int32
  else if d.type = "bool" then .ok .uint8
  else if d.type = "enum" then .ok .int32
  else if d.type = "string" then .ok (.fixedStr (d.maxchars.getD 65536))
  else
    .error (.secopError
      ("Cannot handle SECoP dtype " ++ d.type ++ " within array/struct/tuple"))

/-- Model of `_util.tuple_structured_dtype`: synthetic field names `e0, e1,
...` zipped with the numpy dtypes of the tuple members. -/
def tuple_structured_dtype (d : Datainfo) : Except PyExc (List (String × NpDtype)) := do
  let nps ← d.tupleMembers.mapM secop_dtype_to_numpy_dtype
  return ((List.range d.tupleMembers.length).map (fun n => "e" ++ toString n)).zip nps

/-- Model of `_util.struct_structured_dtype`: the declared member names
paired with the numpy dtypes of the member datainfos. -/
def struct_structured_dtype (d : Datainfo) : Except PyExc (List (String × NpDtype)) :=
  d.structMembers.mapM (fun kv => do
    let dt ← secop_dtype_to_numpy_dtype kv.2
    return (kv.1, dt))

/-- Value of one base64 alphabet character. -/
def b64val (c : Char) : Option ℕ :=
  if 'A' ≤ c ∧ c ≤ 'Z' then some (c.toNat - 'A'.toNat)
  else if 'a' ≤ c ∧ c ≤ 'z' then some (c.toNat - 'a'.toNat + 26)
  else if '0' ≤ c ∧ c ≤ '9' then some (c.toNat - '0'.toNat + 52)
  else if c = '+' then some 62
  else if c = '/' then some 63
  else none

/-- Characters kept by `base64.b64decode` (default non-validating mode
discards everything outside the alphabet and the padding character). -/
def isB64Char (c : Char) : Bool := (b64val c).isSome || c == '='

/-- Decode base64 characters four at a time (padding only at the end). -/
def b64chunks : List Char → Except PyExc (List ℕ)
  | [] => .ok []
  | [a, b, '=', '='] =>
      match b64val a, b64val b with
      | some x, some y => .ok [x * 4 + y / 16]
      | _, _ => .error (.valueError "Invalid base64-encoded string")
  | [a, b, c, '='] =>
      match b64val a, b64val b, b64val c with
      | some x, some y, some z => .ok [x * 4 + y / 16, (y % 16) * 16 + z / 4]
      | _, _, _ => .error (.valueError "Invalid base64-encoded string")
  | a :: b :: c :: d :: rest =>
      match b64val a, b64val b, b64val c, b64val d with
      | some x, some y, some z, some w => do
          let tail ← b64chunks rest
          .ok ([x * 4 + y / 16, (y % 16) * 16 + z / 4, (z % 4) * 64 + w] ++ tail)
      | _, _, _, _ => .error (.valueError "Invalid base64-encoded string")
  | _ => .error (.valueError "Invalid base64-encoded string: wrong padding")

/-- Model of `base64.b64decode` on a Python string. -/
def b64decodeStr (s : String) : Except PyExc (List ℕ) :=
  b64chunks (s.data.filter isB64Char)

/-- Python values decoded from / encoded to the SECoP wire by
`SecopAttributeIO`: a plain parsed-JSON value (the pass-through cases), a
member of the registered `Enum` type (by ordinal), a 1-d numpy array, a 0-d
numpy array, or a one-row numpy structured array. -/
inductive PyValue where
  | plain (j : Json)
  | enum (n : ℤ)
  | npArray (dt : NpDtype) (xs : List Scalar)
  | npScalarArr (dt : NpDtype) (x : Scalar)
  | npRec (fields : List (String × NpDtype × Scalar))

/-- Model of assigning `arr[0][k] = v` on a one-row structured array: the
first field named `k` (field names of a valid structured dtype are unique)
is overwritten with the coerced value; a name that is not a field raises. -/
def setStructField :
    List (String × NpDtype × Scalar) → String → Json →
    Except PyExc (List (String × NpDtype × Scalar))
  | [], k, _ => .error (.keyError k)
  | (n, dt, s) :: rest, k, v =>
      if n = k then do
        let c ← coerceScalar dt v
        .ok ((n, dt, c) :: rest)
      else do
        let r ← setStructField rest k v
        .ok ((n, dt, s) :: r)

/-- Model of the `for k, v in value.items(): arr[0][k] = v` loop of the
struct branch of `SecopAttributeIO.decode`. -/
def applyStructItems :
    List (String × NpDtype × Scalar) → List (String × Json) →
    Except PyExc (List (String × NpDtype × Scalar))
  | flds, [] => .ok flds
  | flds, (k, v) :: rest => do
      let flds2 ← setStructField flds k v
      applyStructItems flds2 rest

/-- Model of Python `tuple(value)` on a parsed-JSON value: lists iterate
over elements, strings over 1-character strings, dicts over their keys;
anything else is not iterable. -/
def pyIterate : Json → Except PyExc (List Json)
  | .arr xs => .ok xs
  | .str s => .ok (s.data.map (fun c => .str ⟨[c]⟩))
  | .obj kvs => .ok (kvs.map (fun kv => .str kv.1))
  | _ => .error (.typeError "object is not iterable")

/-- Model of `SecopAttributeIO.decode` after the `value, *_ = json.loads`
unwrapping: interpretation of the wire payload value under a `datainfo`.
The `enum` case models `attr.dtype(value)` with the `Enum` type that
`SecopModuleController.initialise` builds from the same `datainfo` members
(the io ref carries that same datainfo dictionary). -/
def decodeVal (value : Json) (d : Datainfo) : Except PyExc PyValue :=
  if d.type = "int" ∨ d.type = "bool" ∨ d.type = "double" ∨ d.type = "string" then
    .ok (.plain value)
  else if d.type = "enum" then
    match value with
    | .num q =>
        match d.enumMembers.find? (fun p => decide ((p.2 : ℚ) = q)) with
        | some p => .ok (.enum p.2)
        | none => .error (.valueError "is not a valid enum_type")
    | .bool b =>
        match d.enumMembers.find? (fun p => decide ((p.2 : ℚ) = if b then 1 else 0)) with
        | some p => .ok (.enum p.2)
        | none => .error (.valueError "is not a valid enum_type")
    | _ => .error (.valueError "is not a valid enum_type")
  else if d.type = "scaled" then do
    let s ← need d.scale "scale"
    match value with
    | .num q => .ok (.plain (.num (q * s)))
    | .bool b => .ok (.plain (.num ((if b then 1 else 0) * s)))
    | _ => .error (.typeError "can not multiply non-numeric value by float")
  else if d.type = "blob" then
    match value with
    | .str sv => do
        let bytes ← b64decodeStr sv
        .ok (.npArray .uint8 (bytes.map (fun b => .i (b : ℤ))))
    | _ => .error (.typeError "argument should be a bytes-like object or ASCII string")
  else if d.type = "array" then do
    let idt ← need d.arrayMember "members"
    let dt ← secop_dtype_to_numpy_dtype idt
    match value with
    | .arr xs => do
        let ss ← xs.mapM (coerceScalar dt)
        .ok (.npArray dt ss)
    | j => do
        let sc ← coerceScalar dt j
        .ok (.npScalarArr dt sc)
  else if d.type = "tuple" then do
    let flds ← tuple_structured_dtype d
    let vals ← pyIterate value
    if vals.length = flds.length then do
      let cells ← (flds.zip vals).mapM (fun p => do
        let c ← coerceScalar p.1.2 p.2
        return (p.1.1, p.1.2, c))
      .ok (.npRec cells)
    else .error (.valueError "could not assign tuple to structured array row")
  else if d.type = "struct" then do
    let flds ← struct_structured_dtype d
    match value with
    | .obj kvs => do
        let res ← applyStructItems (flds.map (fun p => (p.1, p.2, zeroScalar p.2))) kvs
        .ok (.npRec res)
    | _ => .error (.attributeError "items")
  else .error (.secopError ("Cannot handle SECoP dtype " ++ d.type))

/-- Model of `json.dumps` on the pass-through cases of
`SecopAttributeIO.encode`: the registered `Enum` members carry their
integer ordinal and are serialized through it; numpy values are not JSON
serializable. -/
def jsonOfPy : PyValue → Except PyExc Json
  | .plain j => .ok j
  | .enum n => .ok (.num (n : ℚ))
  | _ => .error (.typeError "Object is not JSON serializable")

/-- JSON value produced for one numpy cell by `ndarray.tolist()`. -/
def scalarJson : Scalar → Json
  | .f q => .num q
  | .i n => .num (n : ℚ)
  | .s v => .str v

/-- Numeric view of a Python value, as needed by `value / scale`. -/
def pyToRat : PyValue → Except PyExc ℚ
  | .plain (.num q) => .ok q
  | .plain (.bool b) => .ok (if b then 1 else 0)
  | _ => .error (.typeError "unsupported operand types for division")

/-- Model of `SecopAttributeIO.encode` up to `json.dumps`: the JSON value
that is serialized onto the wire (or the exception encoding raises).
In the blob branch `json.dumps` is applied to the `bytes` object returned
by `base64.b64encode`, which is not JSON serializable, so that branch
always raises `TypeError` for a numpy value (and `AssertionError` before
that for a non-numpy value). -/
def encodeVal (value : PyValue) (d : Datainfo) : Except PyExc Json :=
  if d.type = "int" ∨ d.type = "bool" ∨ d.type = "double" ∨ d.type = "string"
      ∨ d.type = "enum" then
    jsonOfPy value
  else if d.type = "scaled" then do
    let s ← need d.scale "scale"
    let q ← pyToRat value
    if s = 0 then .error .zeroDivisionError
    else .ok (.num ((pyRound (q / s) : ℤ) : ℚ))
  else if d.type = "blob" then
    match value with
    | .npArray _ _ | .npScalarArr _ _ | .npRec _ =>
        .error (.typeError "Object of type bytes is not JSON serializable")
    | _ => .error .assertionError
  else if d.type = "array" ∨ d.type = "tuple" then
    match value with
    | .npArray _ xs => .ok (.arr (xs.map scalarJson))
    | .npScalarArr _ x => .ok (scalarJson x)
    | .npRec flds => .ok (.arr [.arr (flds.map (fun f => scalarJson f.2.2))])
    | _ => .error .assertionError
  else .error (.secopError ("Cannot handle SECoP dtype " ++ d.type))

/-- Model of `_util.SecopQuirks` (collections modelled as lists, membership
tests as list membership). -/
structure SecopQuirks where
  update_period : ℚ := 1
  skip_modules : List String := []
  skip_accessibles : List (String × String) := []
  raw_accessibles : List (String × String) := []
  raw_array : Bool := false
  raw_tuple : Bool := false
  raw_struct : Bool := false
  max_description_length : Option ℕ := none

/-- One accessible descriptor from the `describe` document, with the keys
`SecopModuleController.initialise` reads. -/
structure Accessible where
  datainfo : Datainfo
  description : Option String := none
  readonly : Option Bool := none

/-- One module descriptor from the `describe` document: its ordered
accessible dictionary. -/
structure Module where
  accessibles : List (String × Accessible)

/-- FastCS datatype carried by a registered attribute. -/
inductive FastCSDtype where
  | float (units : Option String) (minAlarm maxAlarm : Option ℚ) (prec : ℤ)
  | int (units : Option String) (minAlarm maxAlarm : Option ℚ)
  | bool
  | enum (members : List (String × ℤ))
  | string (maxChars : Option ℕ)
  | waveform (dt : NpDtype) (shape : ℕ)
  | table (fields : List (String × NpDtype))
deriving DecidableEq

/-- One attribute as registered with FastCS by
`SecopModuleController.initialise`: its datatype, whether it is `AttrR`
(read-only) or `AttrRW`, whether it uses the raw (opaque string) io ref,
its (possibly truncated) description, and its update period. -/
structure AttrSpec where
  dtype : FastCSDtype
  readonly : Bool
  raw : Bool
  description : String
  updatePeriod : ℚ
deriving DecidableEq

/-- Model of the Python expression `format_string_to_prec(...) or 6`:
`None` and `0` are falsy and fall back to the default precision 6. -/
def precOrSix (p : Option ℤ) : ℤ :=
  match p with
  | none => 6
  | some n => if n = 0 then 6 else n

/-- Display precision of a registered `Float` attribute:
`format_string_to_prec(datainfo.get("fmtstr", None)) or 6` (the
`ValueError` that `int` may raise propagates). -/
def registeredPrec (fmt : Option String) : Except PyExc ℤ := do
  let p ← format_string_to_prec fmt
  return precOrSix p

/-- Model of the body of the per-accessible loop of
`SecopModuleController.initialise` (everything after the
`skip_accessibles` check): `.ok none` means no attribute is registered
(the `command` case), `.ok (some spec)` registers `spec`, `.error e`
models the exception propagating out of `initialise`. -/
def processAccessible (q : SecopQuirks) (moduleName accessibleName : String)
    (p : Accessible) : Except PyExc (Option AttrSpec) :=
  let datainfo := p.datainfo
  let secopDtype := datainfo.type
  let minVal := datainfo.min
  let maxVal := datainfo.max
  let scale := datainfo.scale
  let description := pyTake q.max_description_length (p.description.getD "")
  let readonly := p.readonly.getD false
  if secopDtype = "command" then
    .ok none
  else if secopDtype = "double" ∨ secopDtype = "scaled" then do
    let minVal := match minVal, scale with
      | some m, some s => some (m * s)
      | _, _ => minVal
    let maxVal := match maxVal, scale with
      | some m, some s => some (m * s)
      | _, _ => maxVal
    let prec ← registeredPrec datainfo.fmtstr
    .ok (some
      { dtype := .float datainfo.unit minVal maxVal prec
        readonly := readonly, raw := false
        description := description, updatePeriod := q.update_period })
  else if secopDtype = "int" then
    .ok (some
      { dtype := .int datainfo.unit minVal maxVal
        readonly := readonly, raw := false
        description := description, updatePeriod := q.update_period })
  else if secopDtype = "bool" then
    .ok (some
      { dtype := .bool
        readonly := readonly, raw := false
        description := description, updatePeriod := q.update_period })
  else if secopDtype = "enum" then
    .ok (some
      { dtype := .enum datainfo.enumMembers
        readonly := readonly, raw := false
        description := description, updatePeriod := q.update_period })
  else if secopDtype = "string" then
    .ok (some
      { dtype := .string none
        readonly := readonly, raw := false
        description := description, updatePeriod := q.update_period })
  else if secopDtype = "blob" then do
    let maxbytes ← need datainfo.maxbytes "maxbytes"
    .ok (some
      { dtype := .waveform .uint8 maxbytes
        readonly := readonly, raw := false
        description := description, updatePeriod := q.update_period })
  else if secopDtype = "array" then
    if q.raw_array ∨ (moduleName, accessibleName) ∈ q.raw_accessibles then
      .ok (some
        { dtype := .string (some 65536)
          readonly := readonly, raw := true
          description := description, updatePeriod := q.update_period })
    else do
      let innerDtype ← need datainfo.arrayMember "members"
      let npInnerDtype ← secop_dtype_to_numpy_dtype innerDtype
      let maxlen ← need datainfo.maxlen "maxlen"
      .ok (some
        { dtype := .waveform npInnerDtype maxlen
          readonly := readonly, raw := false
          description := description, updatePeriod := q.update_period })
  else if secopDtype = "tuple" then
    if q.raw_tuple ∨ (moduleName, accessibleName) ∈ q.raw_accessibles then
      .ok (some
        { dtype := .string (some 65536)
          readonly := readonly, raw := true
          description := description, updatePeriod := q.update_period })
    else do
      let structuredDtype ← tuple_structured_dtype datainfo
      .ok (some
        { dtype := .table structuredDtype
          readonly := readonly, raw := false
          description := description, updatePeriod := q.update_period })
  else if secopDtype = "struct" then
    if q.raw_struct ∨ (moduleName, accessibleName) ∈ q.raw_accessibles then
      .ok (some
        { dtype := .string (some 65536)
          readonly := readonly, raw := true
          description := description, updatePeriod := q.update_period })
    else do
      let structuredDtype ← struct_structured_dtype datainfo
      .ok (some
        { dtype := .table structuredDtype
          readonly := readonly, raw := false
          description := description, updatePeriod := q.update_period })
  else
    -- the closing quote really is missing in the source f-string
    .error (.secopError ("Unsupported secop data type " ++ secopDtype))

/-- The accessible loop of `SecopModuleController.initialise`: attributes
registered so far are kept when a later accessible raises (`add_attribute`
mutates the controller), and the first exception aborts the loop. -/
def initModuleAux (q : SecopQuirks) (moduleName : String) :
    List (String × Accessible) → List (String × AttrSpec) × Option PyExc
  | [] => ([], none)
  | (accessibleName, p) :: rest =>
      if (moduleName, accessibleName) ∈ q.skip_accessibles then
        initModuleAux q moduleName rest
      else
        match processAccessible q moduleName accessibleName p with
        | .ok none => initModuleAux q moduleName rest
        | .ok (some spec) =>
            let r := initModuleAux q moduleName rest
            ((accessibleName, spec) :: r.1, r.2)
        | .error e => ([], some e)

/-- Model of `SecopModuleController.initialise`: the registered attributes
(in registration order) and the exception that escaped, if any. -/
def initialiseModule (q : SecopQuirks) (moduleName : String) (m : Module) :
    List (String × AttrSpec) × Option PyExc :=
  initModuleAux q moduleName m.accessibles

/-- The module loop of `SecopController.initialise`: each non-skipped
module is initialised and then added as a sub controller; a module whose
initialisation raises is not added and the exception aborts the loop
(sub controllers added before it are kept). -/
def initialiseNode (q : SecopQuirks) :
    List (String × Module) →
    List (String × List (String × AttrSpec)) × Option PyExc
  | [] => ([], none)
  | (moduleName, m) :: rest =>
      if moduleName ∈ q.skip_modules then initialiseNode q rest
      else
        match initialiseModule q moduleName m with
        | (attrs, none) =>
            let r := initialiseNode q rest
            ((moduleName, attrs) :: r.1, r.2)
        | (_, some e) => ([], some e)

/-- Model of `SecopController.check_idn`, as a function of the reply line
returned by `send_query`. A reply that does not split into exactly four
comma-separated fields makes the tuple unpacking raise `ValueError`; the
two explicit checks raise `SecopError` naming the offending field value. -/
def check_idn (reply : String) : Except PyExc Unit :=
  let identification := pyStrip reply
  match pySplitComma identification with
  | [manufacturer, product, _, _] =>
      if manufacturer ≠ "ISSE&SINE2020" ∧ manufacturer ≠ "ISSE" then
        .error (.secopError
          ("Device responded to *IDN? with bad manufacturer string "
            ++ manufacturer ++ ". Not a SECoP device?"))
      else if product ≠ "SECoP" then
        .error (.secopError
          ("Device responded to *IDN? with bad product string "
            ++ product ++ ". Not a SECoP device?"))
      else .ok ()
  | parts =>
      .error (.valueError
        ("cannot unpack " ++ toString parts.length ++ " values into 4"))

/-- Calls `SecopController.ping` makes on the connection or on itself. -/
inductive Call where
  | pingQuery
  | connectCall
  | deactivateCall
deriving DecidableEq

/-- Outcomes the environment (connection and peer) gives to the three
operations `ping` can perform in one tick. -/
structure PingEnv where
  pingResult : Except PyExc Unit
  connectResult : Except PyExc Unit
  deactivateResult : Except PyExc Unit

/-- Does the exception match an `except ConnectionError` clause? -/
def isConnErr : PyExc → Bool
  | .connectionError => true
  | _ => false

/-- Model of `SecopController.ping`: the ordered calls it performs and the
exception escaping it, if any. A connectivity failure of the ping query
triggers one `connect()`, then `deactivate()`; any exception of the
reconnect attempt is swallowed by the inner `except Exception`. -/
def ping (env : PingEnv) : List Call × Option PyExc :=
  match env.pingResult with
  | .ok _ => ([.pingQuery], none)
  | .error e =>
      if isConnErr e then
        match env.connectResult with
        | .error _ => ([.pingQuery, .connectCall], none)
        | .ok _ => ([.pingQuery, .connectCall, .deactivateCall], none)
      else ([.pingQuery], some e)

/-- JSON whitespace. -/
def isJsonWs (c : Char) : Bool := c == ' ' || c == '\t' || c == '\n' || c == '\r'

/-- Skip JSON whitespace. -/
def skipWs (cs : List Char) : List Char := cs.dropWhile isJsonWs

/-- Parse a JSON string body after the opening quote into an accumulator
(escapes beyond the common single-character ones are not modelled). -/
def parseStrBody : List Char → List Char → Option (String × List Char)
  | [], _ => none
  | '"' :: rest, acc => some (⟨acc.reverse⟩, rest)
  | '\\' :: e :: rest, acc =>
      match e with
      | '"' => parseStrBody rest ('"' :: acc)
      | '\\' => parseStrBody rest ('\\' :: acc)
      | '/' => parseStrBody rest ('/' :: acc)
      | 'n' => parseStrBody rest ('\n' :: acc)
      | 't' => parseStrBody rest ('\t' :: acc)
      | 'r' => parseStrBody rest ('\r' :: acc)
      | _ => none
  | c :: rest, acc => parseStrBody rest (c :: acc)

/-- Split a leading decimal digit run from the rest. -/
def takeDigits (cs : List Char) : List Char × List Char :=
  (cs.takeWhile Char.isDigit, cs.dropWhile Char.isDigit)

/-- Parse the fractional part of a JSON number, if present. -/
def parseFrac : List Char → Option (ℚ × List Char)
  | '.' :: r =>
      let (fd, r2) := takeDigits r
      if fd = [] then none
      else some ((digitsToNat fd : ℚ) / ((10 : ℚ) ^ fd.length), r2)
  | cs => some (0, cs)

/-- Parse the signed digits of a JSON exponent. -/
def parseExpDigits (r : List Char) : Option (ℤ × List Char) :=
  let (sgn, r1) :=
    if r.head? = some '-' then ((-1 : ℤ), r.tail)
    else if r.head? = some '+' then ((1 : ℤ), r.tail)
    else ((1 : ℤ), r)
  let (ed, r2) := takeDigits r1
  if ed = [] then none else some (sgn * (digitsToNat ed : ℤ), r2)

/-- Parse the exponent part of a JSON number, if present. -/
def parseExp : List Char → Option (ℤ × List Char)
  | 'e' :: r => parseExpDigits r
  | 'E' :: r => parseExpDigits r
  | cs => some (0, cs)

/-- Parse a JSON number as an exact rational. -/
def parseNumAux (cs : List Char) : Option (ℚ × List Char) :=
  let (neg, cs1) := if cs.head? = some '-' then (true, cs.tail) else (false, cs)
  let (ip, cs2) := takeDigits cs1
  if ip = [] then none
  else
    match parseFrac cs2 with
    | none => none
    | some (fv, cs3) =>
        match parseExp cs3 with
        | none => none
        | some (ev, cs4) =>
            let v : ℚ := ((digitsToNat ip : ℚ) + fv) * (10 : ℚ) ^ ev
            some (if neg then -v else v, cs4)

/-- Insert a parsed object field the way a Python dict does: a duplicate
key keeps its first position but the later value wins. -/
def objCombine (k : String) (v : Json) (kvs : List (String × Json)) :
    List (String × Json) :=
  match kvs.lookup k with
  | some v2 => (k, v2) :: kvs.eraseP (fun kv => kv.1 == k)
  | none => (k, v) :: kvs

mutual

/-- Fuel-indexed model of the `json.loads` value parser. -/
def parseVal : ℕ → List Char → Option (Json × List Char)
  | 0, _ => none
  | fuel + 1, cs =>
      match skipWs cs with
      | 'n' :: 'u' :: 'l' :: 'l' :: rest => some (.null, rest)
      | 't' :: 'r' :: 'u' :: 'e' :: rest => some (.bool true, rest)
      | 'f' :: 'a' :: 'l' :: 's' :: 'e' :: rest => some (.bool false, rest)
      | '"' :: rest =>
          match parseStrBody rest [] with
          | some (s, r) => some (.str s, r)
          | none => none
      | '[' :: rest =>
          (match skipWs rest with
           | ']' :: r2 => some (.arr [], r2)
           | _ =>
              match parseElems fuel rest with
              | some (xs, r2) => some (.arr xs, r2)
              | none => none)
      | '\x7b' :: rest =>
          (match skipWs rest with
           | '\x7d' :: r2 => some (.obj [], r2)
           | _ =>
              match parseFields fuel rest with
              | some (kvs, r2) => some (.obj kvs, r2)
              | none => none)
      | other => (parseNumAux other).map (fun p => (Json.num p.1, p.2))
termination_by fuel _ => fuel

/-- Fuel-indexed parser for the comma-separated elements of a JSON array,
up to and including the closing bracket. -/
def parseElems : ℕ → List Char → Option (List Json × List Char)
  | 0, _ => none
  | fuel + 1, cs =>
      match parseVal fuel cs with
      | none => none
      | some (x, r) =>
          match skipWs r with
          | ',' :: r2 =>
              match parseElems fuel r2 with
              | some (xs, r3) => some (x :: xs, r3)
              | none => none
          | ']' :: r2 => some ([x], r2)
          | _ => none
termination_by fuel _ => fuel

/-- Fuel-indexed parser for the fields of a JSON object, up to and
including the closing brace. -/
def parseFields : ℕ → List Char → Option (List (String × Json) × List Char)
  | 0, _ => none
  | fuel + 1, cs =>
      match skipWs cs with
      | '"' :: rest =>
          match parseStrBody rest [] with
          | none => none
          | some (k, r) =>
              match skipWs r with
              | ':' :: r2 =>
                  match parseVal fuel r2 with
                  | none => none
                  | some (v, r3) =>
                      match skipWs r3 with
                      | ',' :: r4 =>
                          match parseFields fuel r4 with
                          | some (kvs, r5) => some (objCombine k v kvs, r5)
                          | none => none
                      | '\x7d' :: r4 => some ([(k, v)], r4)
                      | _ => none
              | _ => none
      | _ => none
termination_by fuel _ => fuel

end

/-- Model of `json.loads`: parse one value and require only whitespace
after it. The fuel is an upper bound on the recursion depth, which grows
by at most one per input character. -/
def pyJsonLoads (s : String) : Except PyExc Json :=
  match parseVal (2 * s.data.length + 2) s.data with
  | some (j, rest) =>
      if skipWs rest = [] then .ok j else .error (.valueError "Extra data")
  | none => .error (.valueError "Expecting value")

mutual

/-- Model of `json.dumps` (numbers are rendered from the exact rational;
string escaping is not modelled). -/
def pyJsonDumps : Json → String
  | .null => "null"
  | .bool true => "true"
  | .bool false => "false"
  | .num q =>
      if q.den = 1 then toString q.num
      else toString q.num ++ "/" ++ toString q.den
  | .str s => "\"" ++ s ++ "\""
  | .arr xs => "[" ++ dumpsElems xs ++ "]"
  | .obj kvs => "\x7b" ++ dumpsFields kvs ++ "\x7d"

/-- Serialize array elements, comma separated. -/
def dumpsElems : List Json → String
  | [] => ""
  | [x] => pyJsonDumps x
  | x :: xs => pyJsonDumps x ++ ", " ++ dumpsElems xs

/-- Serialize object fields, comma separated. -/
def dumpsFields : List (String × Json) → String
  | [] => ""
  | [kv] => "\"" ++ kv.1 ++ "\": " ++ pyJsonDumps kv.2
  | kv :: kvs => "\"" ++ kv.1 ++ "\": " ++ pyJsonDumps kv.2 ++ ", " ++ dumpsFields kvs

end

/-- Model of `io.secop_read` as a function of the reply line (or the
connectivity failure) that `connection.send_query` produced. -/
def secop_read (response : Except PyExc String)
    (moduleName accessibleName : String) : Except PyExc String := do
  let r ← response
  let r := pyStrip r
  let pfx := "reply " ++ moduleName ++ ":" ++ accessibleName ++ " "
  if pyStartswith r pfx then .ok (pyDropLeft r pfx.data.length)
  else .error (.secopError ("Invalid response to read command by SECoP device: " ++ r))

/-- Model of `io.secop_change` as a function of the reply line (or the
connectivity failure) that `connection.send_query` produced. -/
def secop_change (response : Except PyExc String)
    (moduleName accessibleName _encodedValue : String) : Except PyExc Unit := do
  let r ← response
  let r := pyStrip r
  let pfx := "changed " ++ moduleName ++ ":" ++ accessibleName ++ " "
  if pyStartswith r pfx then .ok ()
  else .error (.secopError ("Invalid response to change command by SECoP device: " ++ r))

/-- Model of Python tuple unpacking `value, *_ = j` on a parsed JSON
value: iterables yield their first item, anything else raises. -/
def pyUnpackFirst : Json → Except PyExc Json
  | .arr (v :: _) => .ok v
  | .arr [] => .error (.valueError "not enough values to unpack")
  | .str s =>
      match s.data with
      | c :: _ => .ok (.str ⟨[c]⟩)
      | [] => .error (.valueError "not enough values to unpack")
  | .obj ((k, _) :: _) => .ok (.str k)
  | .obj [] => .error (.valueError "not enough values to unpack")
  | _ => .error (.typeError "cannot unpack non-iterable object")

/-- Model of `SecopAttributeIO.decode` on the raw transported string:
`value, *_ = json.loads(value)` followed by the datainfo dispatch. -/
def decodeRaw (raw : String) (d : Datainfo) : Except PyExc PyValue := do
  let j ← pyJsonLoads raw
  let v ← pyUnpackFirst j
  decodeVal v d

/-- Model of `SecopAttributeIO.encode` including the final `json.dumps`. -/
def encodeStr (value : PyValue) (d : Datainfo) : Except PyExc String := do
  let j ← encodeVal value d
  return pyJsonDumps j

/-- Observable outcome of one `SecopAttributeIO.update` call: the stored
attribute value afterwards, the exception that escaped (if any) and
whether `logger.exception` ran. -/
structure UpdateResult where
  stored : Option PyValue
  escaped : Option PyExc
  logged : Bool

/-- The body of the `try` block of `SecopAttributeIO.update`. -/
def updatePipeline (response : Except PyExc String)
    (moduleName accessibleName : String) (d : Datainfo) : Except PyExc PyValue := do
  let raw ← secop_read response moduleName accessibleName
  decodeRaw raw d

/-- Model of `SecopAttributeIO.update`: `attr.update` runs only after a
successful read and decode; `except ConnectionError` passes silently and
`except Exception` logs; neither re-raises. -/
def update (response : Except PyExc String) (moduleName accessibleName : String)
    (d : Datainfo) (stored : Option PyValue) : UpdateResult :=
  match updatePipeline response moduleName accessibleName d with
  | .ok v => { stored := some v, escaped := none, logged := false }
  | .error e =>
      if isConnErr e then { stored := stored, escaped := none, logged := false }
      else { stored := stored, escaped := none, logged := true }

/-- Observable outcome of one `SecopAttributeIO.send` call. -/
structure SendResult where
  sent : Option String
  escaped : Option PyExc
  logged : Bool

/-- The body of the `try` block of `SecopAttributeIO.send`. -/
def sendPipeline (response : Except PyExc String)
    (moduleName accessibleName : String) (d : Datainfo) (value : PyValue) :
    Except PyExc String := do
  let ev ← encodeStr value d
  let _ ← secop_change response moduleName accessibleName ev
  return ev

/-- Model of `SecopAttributeIO.send`: encode then `secop_change`;
`except ConnectionError` passes silently and `except Exception` logs;
neither re-raises. -/
def send (response : Except PyExc String) (moduleName accessibleName : String)
    (d : Datainfo) (value : PyValue) : SendResult :=
  match sendPipeline response moduleName accessibleName d value with
  | .ok ev => { sent := some ev, escaped := none, logged := false }
  | .error e =>
      if isConnErr e then { sent := none, escaped := none, logged := false }
      else { sent := none, escaped := none, logged := true }

/-- Boolean success test for an `Except` result. -/
def exceptOk {ε α : Type} : Except ε α → Bool
  | .ok _ => true
  | .error _ => false

/-- The `datainfo.type` strings `SecopModuleController.initialise` has a
branch for: the `command` tag plus the ten wire types. -/
def supportedSecopTypes : List String :=
  ["command", "double", "scaled", "int", "bool", "enum", "string", "blob",
   "array", "tuple", "struct"]

/-- The member types `secop_dtype_to_numpy_dtype` has a branch for. -/
def supportedInnerTypes : List String :=
  ["double", "int", "bool", "enum", "string"]

/-!
Theorems. One theorem per claim (plus counterexamples and witnesses where
the claim status requires them), in claim order where dependencies allow.
-/

/-- C6: the SECoP-dtype-to-numpy mapping sends int to the int32 class,
double to float64, bool to the uint8 class, enum to int32, string with
maxchars 123 to the fixed-width-123 string dtype and string without
maxchars to the fixed-width-65536 default, and raises the
cannot-handle-dtype error on the (unsupported as inner type) array tag. -/
theorem C6_dtype_mapping :
    secop_dtype_to_numpy_dtype ⟨"int", none⟩ = .ok .int32
    ∧ secop_dtype_to_numpy_dtype ⟨"double", none⟩ = .ok .float64
    ∧ secop_dtype_to_numpy_dtype ⟨"bool", none⟩ = .ok .uint8
    ∧ secop_dtype_to_numpy_dtype ⟨"enum", none⟩ = .ok .int32
    ∧ secop_dtype_to_numpy_dtype ⟨"string", some 123⟩ = .ok (.fixedStr 123)
    ∧ secop_dtype_to_numpy_dtype ⟨"string", none⟩ = .ok (.fixedStr 65536)
    ∧ secop_dtype_to_numpy_dtype ⟨"array", none⟩ =
        .error (.secopError
          "Cannot handle SECoP dtype array within array/struct/tuple") :=
  ⟨rfl, rfl, rfl, rfl, rfl, rfl, rfl⟩

/-- C1: evaluation of the codec at the failing inputs. The claimed
decode-encode round-trip law fails in the code: for a blob value,
encode always raises TypeError because `json.dumps` is applied to the
`bytes` object returned by `base64.b64encode` (and, independently,
bytes at or above 0x80 would be mangled by the chr/utf-8 conversion); for
a tuple value, encode emits an extra nesting level (the two-element tuple
of 1.0 and 2.0 serializes as a one-row list of lists), which the tuple
decoder then rejects, so decode of encode errors instead of returning the
value. -/
theorem C1_roundtrip_fails_on_blob_and_tuple :
    encodeVal (.npArray .uint8 [.i 65]) { type := "blob", maxbytes := some 4 } =
      .error (.typeError "Object of type bytes is not JSON serializable")
    ∧ encodeVal (.npRec [("e0", .float64, .f 1), ("e1", .float64, .f 2)])
        { type := "tuple", tupleMembers := [⟨"double", none⟩, ⟨"double", none⟩] } =
      .ok (.arr [.arr [.num 1, .num 2]])
    ∧ decodeVal (.arr [.arr [.num 1, .num 2]])
        { type := "tuple", tupleMembers := [⟨"double", none⟩, ⟨"double", none⟩] } =
      .error (.valueError "could not assign tuple to structured array row") :=
  ⟨rfl, rfl, rfl⟩

/-- C5 counterexample: the claim says array member types other than
double, int and bool (including enum and string) are an error, but the
code maps an enum member type to int32 (and a string member type to a
fixed-width string dtype) and decodes an array of enum ordinals without
error. -/
theorem C5_counterexample_enum_member_accepted :
    secop_dtype_to_numpy_dtype ⟨"enum", none⟩ = .ok .int32
    ∧ secop_dtype_to_numpy_dtype ⟨"string", some 7⟩ = .ok (.fixedStr 7)
    ∧ decodeVal (.arr [.num 3, .num 1])
        { type := "array", arrayMember := some ⟨"enum", none⟩, maxlen := some 7 } =
      .ok (.npArray .int32 [.i 3, .i 1]) :=
  ⟨rfl, rfl, rfl⟩

/-- C7 counterexample: the claim says a fmtstr of the form percent-dot-N-f
yields display precision N for every non-negative N, with default 6 only
for absent or other-shaped fmtstr; but for N equal to 0 the code registers
precision 6 (0 is falsy in the `or 6` fallback), and a percent-dot
dot-dot-f string whose middle is not an integer literal raises ValueError
instead of falling back to 6. -/
theorem C7_counterexample_prec_zero_and_bad_middle :
    registeredPrec (some "%.0f") = .ok 6
    ∧ (6 : ℤ) ≠ 0
    ∧ format_string_to_prec (some "%.xf") =
        .error (.valueError "invalid literal for int with base 10") :=
  ⟨rfl, by decide, rfl⟩

/-- C2 counterexample: the claim says a reply not of the 4-field form
fails with a SecopError naming the offending field, but a three-field
reply makes the tuple unpacking raise a ValueError (not a SecopError, and
naming no field). -/
theorem C2_counterexample_three_fields_valueerror :
    check_idn "ISSE,SECoP,x" =
      .error (.valueError "cannot unpack 3 values into 4") :=
  rfl

/-- C9 counterexample: the claim says a connectivity failure during
update() is absorbed and logged, but the `except ConnectionError` branch
is a bare pass: nothing is logged (the stored value is indeed kept and no
exception escapes). -/
theorem C9_counterexample_connectivity_not_logged :
    update (.error .connectionError) "mod" "acc" { type := "int" }
        (some (.plain (.num 7))) =
      { stored := some (.plain (.num 7)), escaped := none, logged := false } :=
  rfl

/-- C8: when the periodic ping query fails with a connectivity error,
exactly one connect() call is attempted, followed by deactivate() when the
connect succeeds, and no exception escapes ping() even when the reconnect
attempt itself fails. -/
theorem C8_ping_one_reconnect_no_escape (env : PingEnv)
    (h : env.pingResult = .error .connectionError) :
    (ping env).2 = none
    ∧ ((ping env).1.filter (fun c => decide (c = Call.connectCall))).length = 1
    ∧ (∀ u, env.connectResult = .ok u →
        (ping env).1 = [.pingQuery, .connectCall, .deactivateCall])
    ∧ (∀ e, env.connectResult = .error e →
        (ping env).1 = [.pingQuery, .connectCall]) := by
  cases hc : env.connectResult with
  | ok u => simp [ping, h, hc, isConnErr, List.filter]
  | error e => simp [ping, h, hc, isConnErr, List.filter]

/-- C3: an accessible whose datainfo type is none of the ten wire types
and not command makes processing raise the unsupported-secop-data-type
SecopError (neither skipping nor registering the accessible), and module
initialisation for a module containing such a non-skipped accessible ends
with an exception. -/
theorem C3_unsupported_dtype_hard_error
    (q : SecopQuirks) (moduleName accessibleName : String) (p : Accessible)
    (h : p.datainfo.type ∉ supportedSecopTypes) :
    processAccessible q moduleName accessibleName p =
      .error (.secopError ("Unsupported secop data type " ++ p.datainfo.type))
    ∧ ∀ m : Module, (accessibleName, p) ∈ m.accessibles →
        (moduleName, accessibleName) ∉ q.skip_accessibles →
        ((initialiseModule q moduleName m).2).isSome = true := by
  simp only [supportedSecopTypes, List.mem_cons, List.mem_singleton, not_or] at h
  obtain ⟨h1, h2, h3, h4, h5, h6, h7, h8, h9, h10, h11, -⟩ := h
  have hproc : processAccessible q moduleName accessibleName p =
      .error (.secopError ("Unsupported secop data type " ++ p.datainfo.type)) := by
    simp [processAccessible, h1, h2, h3, h4, h5, h6, h7, h8, h9, h10, h11]
  refine ⟨hproc, ?_⟩
  intro m hm hskip
  obtain ⟨accs⟩ := m
  simp only [initialiseModule] at *
  induction accs with
  | nil => simp at hm
  | cons head rest ih =>
    obtain ⟨an, pa⟩ := head
    rcases List.mem_cons.mp hm with heq | hmem
    · injection heq with e1 e2
      subst e1
      subst e2
      simp [initModuleAux, hskip, hproc]
    · by_cases hs : (moduleName, an) ∈ q.skip_accessibles
      · simpa [initModuleAux, hs] using ih hmem
      · rcases hpr : processAccessible q moduleName an pa with e | v
        · simp [initModuleAux, hs, hpr]
        · rcases v with _ | spec
          · simpa [initModuleAux, hs, hpr] using ih hmem
          · simpa [initModuleAux, hs, hpr] using ih hmem

/-- C4: a module listed in skip_modules gets no sub controller; an
accessible pair listed in skip_accessibles is never registered; and the
skip check runs before any datainfo dispatch, so a skipped accessible is
simply dropped even when its datainfo type would otherwise raise. -/
theorem C4_quirks_skip :
    (∀ (q : SecopQuirks) (mods : List (String × Module)) (mn : String),
      mn ∈ q.skip_modules →
      mn ∉ (initialiseNode q mods).1.map Prod.fst)
    ∧ (∀ (q : SecopQuirks) (mn : String) (m : Module) (an : String),
      (mn, an) ∈ q.skip_accessibles →
      an ∉ (initialiseModule q mn m).1.map Prod.fst)
    ∧ (∀ (q : SecopQuirks) (mn an : String) (p : Accessible)
        (rest : List (String × Accessible)),
      (mn, an) ∈ q.skip_accessibles →
      initModuleAux q mn ((an, p) :: rest) = initModuleAux q mn rest) := by
  refine ⟨?_, ?_, ?_⟩
  · intro q mods mn hskip
    induction mods with
    | nil => simp [initialiseNode]
    | cons head rest ih =>
      obtain ⟨mn', m⟩ := head
      by_cases hs : mn' ∈ q.skip_modules
      · simpa [initialiseNode, hs] using ih
      · have hne : mn ≠ mn' := fun e => hs (e ▸ hskip)
        rcases hr : initialiseModule q mn' m with ⟨attrs, _ | e⟩
        · simp [initialiseNode, hs, hr, hne, ih]
        · simp [initialiseNode, hs, hr]
  · intro q mn m an hskip
    obtain ⟨accs⟩ := m
    simp only [initialiseModule]
    induction accs with
    | nil => simp [initModuleAux]
    | cons head rest ih =>
      obtain ⟨an', pa⟩ := head
      by_cases hs : (mn, an') ∈ q.skip_accessibles
      · simpa [initModuleAux, hs] using ih
      · have hne : an ≠ an' := fun e => hs (e ▸ hskip)
        rcases hpr : processAccessible q mn an' pa with e | v
        · simp [initModuleAux, hs, hpr]
        · rcases v with _ | spec
          · simpa [initModuleAux, hs, hpr] using ih
          · have hred : initModuleAux q mn ((an', pa) :: rest) =
                ((an', spec) :: (initModuleAux q mn rest).1,
                  (initModuleAux q mn rest).2) := by
              simp [initModuleAux, hs, hpr]
            rw [hred, List.map_cons]
            simp only [List.mem_cons, not_or]
            exact ⟨hne, ih⟩
  · intro q mn an p rest hskip
    simp [initModuleAux, hskip]

/-- C2 (amended): check_idn succeeds exactly on a reply that strips to
four comma-separated fields whose manufacturer is ISSE&SINE2020 or ISSE
and whose product is SECoP; a 4-field reply with a wrong manufacturer or
product raises a SecopError naming the offending field value, while a
reply not of the 4-field form raises the ValueError of tuple unpacking
(not a SecopError). -/
theorem C2_check_idn_characterisation (reply : String) :
    (check_idn reply = .ok () ↔
      (pySplitComma (pyStrip reply)).length = 4
      ∧ ((pySplitComma (pyStrip reply)).getD 0 "" = "ISSE&SINE2020"
          ∨ (pySplitComma (pyStrip reply)).getD 0 "" = "ISSE")
      ∧ (pySplitComma (pyStrip reply)).getD 1 "" = "SECoP")
    ∧ ((pySplitComma (pyStrip reply)).length ≠ 4 →
        check_idn reply = .error (.valueError
          ("cannot unpack " ++ toString (pySplitComma (pyStrip reply)).length
            ++ " values into 4")))
    ∧ (∀ manufacturer product f3 f4,
        pySplitComma (pyStrip reply) = [manufacturer, product, f3, f4] →
        manufacturer ≠ "ISSE&SINE2020" → manufacturer ≠ "ISSE" →
        check_idn reply = .error (.secopError
          ("Device responded to *IDN? with bad manufacturer string "
            ++ manufacturer ++ ". Not a SECoP device?")))
    ∧ (∀ manufacturer product f3 f4,
        pySplitComma (pyStrip reply) = [manufacturer, product, f3, f4] →
        product ≠ "SECoP" →
        (manufacturer = "ISSE&SINE2020" ∨ manufacturer = "ISSE") →
        check_idn reply = .error (.secopError
          ("Device responded to *IDN? with bad product string "
            ++ product ++ ". Not a SECoP device?"))) := by
  rcases hp : pySplitComma (pyStrip reply) with
    _ | ⟨a, _ | ⟨b, _ | ⟨c, _ | ⟨d, _ | ⟨x, t⟩⟩⟩⟩⟩
  · simp [check_idn, hp]
  · simp [check_idn, hp]
  · simp [check_idn, hp]
  · simp [check_idn, hp]
  · by_cases hA : a = "ISSE&SINE2020" <;> by_cases hB : a = "ISSE" <;>
      by_cases hP : b = "SECoP" <;>
      simp [check_idn, hp, hA, hB, hP] <;>
      aesop
  · simp [check_idn, hp]

/-- Helper: dropWhile is the identity when the predicate fails on every
element. -/
theorem dropWhile_eq_self_of_false {p : Char → Bool} {cs : List Char}
    (h : ∀ c ∈ cs, p c = false) : cs.dropWhile p = cs := by
  cases cs with
  | nil => rfl
  | cons a l => simp [List.dropWhile_cons, h a (by simp)]

/-- Helper: stripping whitespace is the identity on whitespace-free
text. -/
theorem pyStripList_eq_self {cs : List Char}
    (h : ∀ c ∈ cs, isWs c = false) : pyStripList cs = cs := by
  unfold pyStripList
  rw [dropWhile_eq_self_of_false h,
    dropWhile_eq_self_of_false (fun c hc => h c (List.mem_reverse.mp hc)),
    List.reverse_reverse]

/-- Helper: a decimal digit is not whitespace. -/
theorem isWs_false_of_digit {c : Char} (h : c.isDigit = true) :
    isWs c = false := by
  have h1 : c ≠ ' ' := by rintro rfl; exact absurd h (by decide)
  have h2 : c ≠ '\t' := by rintro rfl; exact absurd h (by decide)
  have h3 : c ≠ '\n' := by rintro rfl; exact absurd h (by decide)
  have h4 : c ≠ '\r' := by rintro rfl; exact absurd h (by decide)
  have h5 : c ≠ '\x0b' := by rintro rfl; exact absurd h (by decide)
  have h6 : c ≠ '\x0c' := by rintro rfl; exact absurd h (by decide)
  simp [isWs, h1, h2, h3, h4, h5, h6]

/-- Helper: Python int on a nonempty all-digit string parses the digit
run. -/
theorem pyInt_digits {ds : List Char} (h0 : ds ≠ [])
    (hd : ∀ c ∈ ds, c.isDigit = true) :
    pyInt ⟨ds⟩ = some (digitsToNat ds : ℤ) := by
  have hstrip : pyStripList ds = ds :=
    pyStripList_eq_self (fun c hc => isWs_false_of_digit (hd c hc))
  obtain ⟨c, cs, rfl⟩ := List.exists_cons_of_ne_nil h0
  have hc : c.isDigit = true := hd c (by simp)
  have hc1 : c ≠ '-' := by rintro rfl; exact absurd hc (by decide)
  have hc2 : c ≠ '+' := by rintro rfl; exact absurd hc (by decide)
  have hall : ∀ x ∈ cs, x.isDigit = true :=
    fun x hx => hd x (List.mem_cons_of_mem c hx)
  have hdv : digitsVal (c :: cs) = some (digitsToNat (c :: cs)) := by
    unfold digitsVal
    rw [if_pos ⟨List.cons_ne_nil c cs, List.all_eq_true.mpr hd⟩]
  simp only [pyInt]
  rw [hstrip]
  rw [if_neg (by simp [hc1]), if_neg (by simp [hc2]), hdv]
  rfl

/-- C7 (amended): a fmtstr of the percent-dot-digits-f shape registers
display precision int(digits) when that integer is positive, but falls
back to the default 6 when the digits denote 0 (0 is falsy in the
`or 6` fallback); an absent fmtstr, or one without that shape, also
registers the default 6 (while a percent-dot...f fmtstr whose middle is
not an integer literal raises ValueError, per the counterexample). -/
theorem C7_registered_precision :
    (∀ ds : List Char, ds ≠ [] → (∀ c ∈ ds, c.isDigit = true) →
      registeredPrec (some ⟨'%' :: '.' :: (ds ++ ['f'])⟩) =
        .ok (if digitsToNat ds = 0 then 6 else (digitsToNat ds : ℤ)))
    ∧ registeredPrec none = .ok 6
    ∧ (∀ s : String,
        (pyStartswith s "%." = false ∨ pyEndswith s "f" = false) →
        registeredPrec (some s) = .ok 6) := by
  refine ⟨?_, rfl, ?_⟩
  · intro ds h0 hd
    have h1 : pyStartswith ⟨'%' :: '.' :: (ds ++ ['f'])⟩ "%." = true := rfl
    have h2 : pyEndswith ⟨'%' :: '.' :: (ds ++ ['f'])⟩ "f" = true := by
      simp [pyEndswith, listIsPrefix, List.reverse_cons, List.reverse_append]
    have h3 : pySliceTwoToLast ⟨'%' :: '.' :: (ds ++ ['f'])⟩ = ⟨ds⟩ := by
      simp [pySliceTwoToLast, List.dropLast_concat]
    have h4 := pyInt_digits h0 hd
    simp [registeredPrec, format_string_to_prec, h1, h2, h3, h4, precOrSix,
      Int.natCast_eq_zero]
  · intro s hs
    rcases hs with hs | hs <;>
      simp [registeredPrec, format_string_to_prec, hs, precOrSix]

/-- C5 (amended): within array/tuple/struct, exactly the member types
double, int, bool, enum and string are supported: any other member type
(such as a nested array, tuple or struct) makes both the dtype mapping and
the decoding of an array with that member type raise the
cannot-handle-dtype SecopError, while the five supported member types all
map to a numpy dtype. -/
theorem C5_array_member_types :
    (∀ idt : InnerDatainfo, idt.type ∉ supportedInnerTypes →
      secop_dtype_to_numpy_dtype idt =
        .error (.secopError
          ("Cannot handle SECoP dtype " ++ idt.type ++ " within array/struct/tuple"))
      ∧ ∀ (d : Datainfo) (j : Json), d.type = "array" → d.arrayMember = some idt →
          decodeVal j d =
            .error (.secopError
              ("Cannot handle SECoP dtype " ++ idt.type ++ " within array/struct/tuple")))
    ∧ (∀ idt : InnerDatainfo, idt.type ∈ supportedInnerTypes →
        ∃ dt, secop_dtype_to_numpy_dtype idt = .ok dt) := by
  constructor
  · intro idt h
    simp only [supportedInnerTypes, List.mem_cons, List.mem_singleton, not_or] at h
    obtain ⟨h1, h2, h3, h4, h5, -⟩ := h
    have herr : secop_dtype_to_numpy_dtype idt =
        .error (.secopError
          ("Cannot handle SECoP dtype " ++ idt.type ++ " within array/struct/tuple")) := by
      simp [secop_dtype_to_numpy_dtype, h1, h2, h3, h4, h5]
    refine ⟨herr, ?_⟩
    intro d j hd hm
    simp [decodeVal, hd, hm, need, herr, Bind.bind, Except.bind]
  · intro idt h
    obtain ⟨t, mc⟩ := idt
    simp only [supportedInnerTypes, List.mem_cons, List.not_mem_nil,
      or_false] at h
    rcases h with h | h | h | h | h <;> subst h
    · exact ⟨.float64, rfl⟩
    · exact ⟨.int32, rfl⟩
    · exact ⟨.uint8, rfl⟩
    · exact ⟨.int32, rfl⟩
    · exact ⟨.fixedStr (mc.getD 65536), rfl⟩

/-- C9 (amended): update() and send() never let an exception escape; a
connectivity failure is absorbed silently (contrary to the claim, nothing
is logged on that path); any other failure of the read/decode or
encode/write pipeline is logged and is a no-op for that cycle; and the
stored attribute value changes only when the whole read-and-decode
pipeline succeeds, in which case it becomes the decoded value. -/
theorem C9_update_send_no_escape :
    (∀ (response : Except PyExc String) (mn an : String) (d : Datainfo)
        (stored : Option PyValue),
      (update response mn an d stored).escaped = none
      ∧ (response = .error .connectionError →
          update response mn an d stored =
            { stored := stored, escaped := none, logged := false })
      ∧ (∀ e, updatePipeline response mn an d = .error e →
          (update response mn an d stored).stored = stored
          ∧ (update response mn an d stored).logged = !(isConnErr e))
      ∧ (∀ v, updatePipeline response mn an d = .ok v →
          (update response mn an d stored).stored = some v))
    ∧ (∀ (response : Except PyExc String) (mn an : String) (d : Datainfo)
        (value : PyValue),
      (send response mn an d value).escaped = none
      ∧ (∀ e, sendPipeline response mn an d value = .error e →
          (send response mn an d value).logged = !(isConnErr e))) := by
  constructor
  · intro response mn an d stored
    refine ⟨?_, ?_, ?_, ?_⟩
    · rcases hp : updatePipeline response mn an d with e | v
      · cases hce : isConnErr e <;> simp [update, hp, hce]
      · simp [update, hp]
    · rintro rfl
      rfl
    · intro e he
      cases hce : isConnErr e <;> simp [update, he, hce]
    · intro v hv
      simp [update, hv]
  · intro response mn an d value
    refine ⟨?_, ?_⟩
    · rcases hp : sendPipeline response mn an d value with e | v
      · cases hce : isConnErr e <;> simp [send, hp, hce]
      · simp [send, hp]
    · intro e he
      cases hce : isConnErr e <;> simp [send, he, hce]

/-- Helper: a left element of a Forall₂ pair has a related right
element. -/
theorem forall2_exists_right {α β : Type} {R : α → β → Prop}
    {l1 : List α} {l2 : List β} (h : List.Forall₂ R l1 l2) :
    ∀ {a}, a ∈ l1 → ∃ b ∈ l2, R a b := by
  induction h with
  | nil => intro a ha; simp at ha
  | cons hr _ ih =>
    intro a ha
    rcases List.mem_cons.mp ha with rfl | hmem
    · exact ⟨_, by simp, hr⟩
    · obtain ⟨b, hb, hab⟩ := ih hmem
      exact ⟨b, by simp [hb], hab⟩

/-- Helper: pointwise composition of two Forall₂ relations. -/
theorem forall2_comp {α : Type} {R S T : α → α → Prop}
    (hcomp : ∀ a b c, R a b → S b c → T a c) :
    ∀ {l1 l2 l3 : List α}, List.Forall₂ R l1 l2 → List.Forall₂ S l2 l3 →
      List.Forall₂ T l1 l3 := by
  intro l1 l2 l3 h1
  induction h1 generalizing l3 with
  | nil => intro h2; cases h2; exact .nil
  | cons hr _ ih =>
    intro h2
    cases h2 with
    | cons hs hts => exact .cons (hcomp _ _ _ hr hs) (ih hts)

/-- Helper: a Forall₂ whose relation equates images gives equal maps. -/
theorem forall2_map_eq {α β γ : Type} {R : α → β → Prop} {f : α → γ} {g : β → γ}
    (h : ∀ a b, R a b → f a = g b) :
    ∀ {l1 l2}, List.Forall₂ R l1 l2 → l1.map f = l2.map g := by
  intro l1 l2 hf
  induction hf with
  | nil => rfl
  | cons hr _ ih => simp [h _ _ hr, ih]

/-- Helper: a successful field assignment on a structured row relates the
old and new rows entrywise: names and dtypes are unchanged, the (unique)
field named k now holds the coerced value, every other field is
untouched. -/
theorem setStructField_spec {k : String} {v : Json} :
    ∀ {st : List (String × NpDtype × Scalar)},
      (st.map Prod.fst).Nodup →
      (∃ r ∈ st, r.1 = k ∧ exceptOk (coerceScalar r.2.1 v) = true) →
      ∃ st1, setStructField st k v = .ok st1 ∧
        List.Forall₂ (fun a b : String × NpDtype × Scalar =>
          a.1 = b.1 ∧ a.2.1 = b.2.1 ∧
          (a.1 = k → coerceScalar a.2.1 v = .ok b.2.2) ∧
          (a.1 ≠ k → b = a)) st st1 := by
  intro st
  induction st with
  | nil => rintro _ ⟨r, hr, _⟩; simp at hr
  | cons head rest ih =>
    rintro hnodup ⟨r, hrmem, hrk, hrok⟩
    obtain ⟨n, dt, s⟩ := head
    rw [List.map_cons, List.nodup_cons] at hnodup
    by_cases hnk : n = k
    · have hok : exceptOk (coerceScalar dt v) = true := by
        rcases List.mem_cons.mp hrmem with rfl | hmem
        · exact hrok
        · exfalso
          have hmm : r.1 ∈ rest.map Prod.fst := List.mem_map_of_mem Prod.fst hmem
          rw [hrk, ← hnk] at hmm
          exact hnodup.1 hmm
      rcases hc : coerceScalar dt v with e | c
      · rw [hc] at hok; simp [exceptOk] at hok
      · refine ⟨(n, dt, c) :: rest, ?_, ?_⟩
        · simp [setStructField, hnk, hc, Bind.bind, Except.bind]
        · refine List.Forall₂.cons ⟨rfl, rfl, fun _ => hc, fun hn => absurd hnk hn⟩ ?_
          refine List.forall₂_same.mpr ?_
          intro a ha
          refine ⟨rfl, rfl, fun hak => ?_, fun _ => rfl⟩
          exfalso
          have hmm : a.1 ∈ rest.map Prod.fst := List.mem_map_of_mem Prod.fst ha
          rw [hak, ← hnk] at hmm
          exact hnodup.1 hmm
    · have hwit : ∃ r ∈ rest, r.1 = k ∧ exceptOk (coerceScalar r.2.1 v) = true := by
        rcases List.mem_cons.mp hrmem with rfl | hmem
        · exact absurd hrk hnk
        · exact ⟨r, hmem, hrk, hrok⟩
      obtain ⟨st1, hset, hrel⟩ := ih hnodup.2 hwit
      refine ⟨(n, dt, s) :: st1, ?_, ?_⟩
      · simp [setStructField, hnk, hset, Bind.bind, Except.bind]
      · exact .cons ⟨rfl, rfl, fun h => absurd h hnk, fun _ => rfl⟩ hrel

/-- Helper: a successful field assignment never changes the field
names. -/
theorem setStructField_ok_names {k : String} {v : Json} :
    ∀ {st st1 : List (String × NpDtype × Scalar)},
      setStructField st k v = .ok st1 → st1.map Prod.fst = st.map Prod.fst := by
  intro st
  induction st with
  | nil => intro st1 h; simp [setStructField] at h
  | cons head rest ih =>
    intro st1 h
    obtain ⟨n, dt, s⟩ := head
    by_cases hnk : n = k
    · rcases hc : coerceScalar dt v with e | c
      · simp [setStructField, hnk, hc, Bind.bind, Except.bind] at h
      · simp [setStructField, hnk, hc, Bind.bind, Except.bind] at h
        rw [← h]
        simp [hnk]
    · rcases hs : setStructField rest k v with e | st2
      · simp [setStructField, hnk, hs, Bind.bind, Except.bind] at h
      · simp [setStructField, hnk, hs, Bind.bind, Except.bind] at h
        rw [← h]
        simp [ih hs]

/-- Helper: assigning a name that is not a declared field raises
KeyError. -/
theorem setStructField_absent {k : String} {v : Json} :
    ∀ {st : List (String × NpDtype × Scalar)},
      k ∉ st.map Prod.fst → setStructField st k v = .error (.keyError k) := by
  intro st
  induction st with
  | nil => intro _; rfl
  | cons head rest ih =>
    intro h
    obtain ⟨n, dt, s⟩ := head
    have hnk : ¬n = k := fun e => h (by simp [e])
    have hk : k ∉ rest.map Prod.fst := fun hm => h (by simp [hm])
    simp [setStructField, hnk, ih hk, Bind.bind, Except.bind]

/-- Helper: the item loop fails whenever some transmitted key is not a
declared field name. -/
theorem applyStructItems_badkey {k : String} {v : Json} :
    ∀ (kvs : List (String × Json)) (st : List (String × NpDtype × Scalar)),
      (k, v) ∈ kvs → k ∉ st.map Prod.fst →
      ∃ e, applyStructItems st kvs = .error e := by
  intro kvs
  induction kvs with
  | nil => intro st h _; simp at h
  | cons kv rest ih =>
    intro st hmem hk
    obtain ⟨k1, v1⟩ := kv
    rcases List.mem_cons.mp hmem with heq | hmem'
    · injection heq with e1 e2
      subst e1
      subst e2
      exact ⟨.keyError k,
        by simp [applyStructItems, setStructField_absent hk, Bind.bind, Except.bind]⟩
    · rcases hsf : setStructField st k1 v1 with e | st1
      · exact ⟨e, by simp [applyStructItems, hsf, Bind.bind, Except.bind]⟩
      · have hk1 : k ∉ st1.map Prod.fst := by
          rw [setStructField_ok_names hsf]; exact hk
        obtain ⟨e, he⟩ := ih st1 hmem' hk1
        exact ⟨e, by simp [applyStructItems, hsf, he, Bind.bind, Except.bind]⟩

/-- Helper: the item loop of struct decoding, on distinct declared names
and distinct transmitted keys that are all declared and coercible,
succeeds and yields rows whose assigned fields hold the coerced
transmitted values and whose other fields are untouched. -/
theorem applyStructItems_spec :
    ∀ (kvs : List (String × Json)) (st : List (String × NpDtype × Scalar)),
      (st.map Prod.fst).Nodup →
      (kvs.map Prod.fst).Nodup →
      (∀ kv ∈ kvs, ∃ r ∈ st, r.1 = kv.1 ∧ exceptOk (coerceScalar r.2.1 kv.2) = true) →
      ∃ res, applyStructItems st kvs = .ok res ∧
        List.Forall₂ (fun a b : String × NpDtype × Scalar =>
          a.1 = b.1 ∧ a.2.1 = b.2.1 ∧
          (∀ v, (a.1, v) ∈ kvs → coerceScalar a.2.1 v = .ok b.2.2) ∧
          (a.1 ∉ kvs.map Prod.fst → b = a)) st res := by
  intro kvs
  induction kvs with
  | nil =>
    intro st _ _ _
    refine ⟨st, rfl, List.forall₂_same.mpr ?_⟩
    intro a _
    exact ⟨rfl, rfl, fun v hv => by simp at hv, fun _ => rfl⟩
  | cons kv rest ih =>
    intro st hnodupS hnodupK hcov
    obtain ⟨k, v⟩ := kv
    obtain ⟨st1, hset, hrel1⟩ := setStructField_spec hnodupS (hcov (k, v) (by simp))
    have hfst : st.map Prod.fst = st1.map Prod.fst :=
      forall2_map_eq (fun a b hr => hr.1) hrel1
    have hnodup1 : (st1.map Prod.fst).Nodup := hfst ▸ hnodupS
    rw [List.map_cons, List.nodup_cons] at hnodupK
    have hk_not_rest : k ∉ rest.map Prod.fst := hnodupK.1
    have hcov1 : ∀ kv ∈ rest,
        ∃ r1 ∈ st1, r1.1 = kv.1 ∧ exceptOk (coerceScalar r1.2.1 kv.2) = true := by
      intro kv hkv
      obtain ⟨r, hrmem, hrk, hrok⟩ := hcov kv (by simp [hkv])
      obtain ⟨b, hbmem, hb1, hb2, -⟩ := forall2_exists_right hrel1 hrmem
      exact ⟨b, hbmem, by rw [← hb1]; exact hrk, by rw [← hb2]; exact hrok⟩
    obtain ⟨res, happ, hrel2⟩ := ih st1 hnodup1 hnodupK.2 hcov1
    refine ⟨res, by simp [applyStructItems, hset, happ, Bind.bind, Except.bind], ?_⟩
    apply forall2_comp ?_ hrel1 hrel2
    rintro a b c ⟨hab1, hab2, habk, habnk⟩ ⟨hbc1, hbc2, hbck, hbcnk⟩
    refine ⟨hab1.trans hbc1, hab2.trans hbc2, ?_, ?_⟩
    · intro v' hv'
      rcases List.mem_cons.mp hv' with heq | hmem
      · injection heq with e1 e2
        subst e2
        have hcb : c = b := by
          apply hbcnk
          rw [← hab1, e1]
          exact hk_not_rest
        rw [hcb]
        exact habk e1
      · have hane : a.1 ≠ k := by
          rintro he
          apply hk_not_rest
          rw [← he]
          exact List.mem_map_of_mem Prod.fst hmem
        have hba : b = a := habnk hane
        have hgoal := hbck v' (by rw [hba]; exact hmem)
        rw [hba] at hgoal
        exact hgoal
    · intro hnotin
      have h1 : a.1 ≠ k := by intro he; exact hnotin (by simp [he])
      have h2 : a.1 ∉ rest.map Prod.fst := by
        intro hm; exact hnotin (by simp [hm])
      have hba : b = a := habnk h1
      have hcb : c = b := hbcnk (by rw [hba]; exact h2)
      rw [hcb, hba]

/-- C10: decoding a struct value builds a one-row record over the declared
members in declaration order: every member present in the transmitted map
holds the (numpy-coerced) transmitted value, every omitted member holds
the zero/empty value of its element dtype that np.zeros put there, and a
transmitted key that is not a declared member makes decoding raise instead
of silently dropping the key. -/
theorem C10_struct_decode :
    (∀ (d : Datainfo) (kvs : List (String × Json)) (flds : List (String × NpDtype)),
      d.type = "struct" →
      struct_structured_dtype d = .ok flds →
      (flds.map Prod.fst).Nodup →
      (kvs.map Prod.fst).Nodup →
      (∀ kv ∈ kvs, ∃ p ∈ flds, p.1 = kv.1 ∧ exceptOk (coerceScalar p.2 kv.2) = true) →
      ∃ res, decodeVal (.obj kvs) d = .ok (.npRec res) ∧
        List.Forall₂ (fun (p : String × NpDtype) (r : String × NpDtype × Scalar) =>
          r.1 = p.1 ∧ r.2.1 = p.2 ∧
          (∀ v, (p.1, v) ∈ kvs → coerceScalar p.2 v = .ok r.2.2) ∧
          (p.1 ∉ kvs.map Prod.fst → r.2.2 = zeroScalar p.2)) flds res)
    ∧ (∀ (d : Datainfo) (kvs : List (String × Json))
        (flds : List (String × NpDtype)) (k : String) (v : Json),
      d.type = "struct" →
      struct_structured_dtype d = .ok flds →
      (k, v) ∈ kvs →
      (∀ p ∈ flds, p.1 ≠ k) →
      ∃ e, decodeVal (.obj kvs) d = .error e) := by
  have hinit : ∀ flds : List (String × NpDtype),
      ((flds.map fun p => (p.1, p.2, zeroScalar p.2)).map Prod.fst) =
        flds.map Prod.fst := by
    intro flds
    induction flds with
    | nil => rfl
    | cons p l ih => simp [ih]
  constructor
  · intro d kvs flds htype hsd hnodupF hnodupK hcov
    have hcovS : ∀ kv ∈ kvs,
        ∃ r ∈ (flds.map fun p => (p.1, p.2, zeroScalar p.2)),
          r.1 = kv.1 ∧ exceptOk (coerceScalar r.2.1 kv.2) = true := by
      intro kv hkv
      obtain ⟨p, hp, hp1, hp2⟩ := hcov kv hkv
      exact ⟨(p.1, p.2, zeroScalar p.2),
        List.mem_map_of_mem (fun p => (p.1, p.2, zeroScalar p.2)) hp, hp1, hp2⟩
    obtain ⟨res, happ, hrel⟩ := applyStructItems_spec kvs
        (flds.map fun p => (p.1, p.2, zeroScalar p.2))
        ((hinit flds).symm ▸ hnodupF) hnodupK hcovS
    refine ⟨res, ?_, ?_⟩
    · simp [decodeVal, htype, hsd, happ, Bind.bind, Except.bind]
    · have hrel' := List.forall₂_map_left_iff.mp hrel
      refine hrel'.imp ?_
      rintro p r ⟨h1, h2, h3, h4⟩
      exact ⟨h1.symm, h2.symm, h3, fun hn => h4 hn ▸ rfl⟩
  · intro d kvs flds k v htype hsd hkv hnd
    have hknot : k ∉ (flds.map fun p => (p.1, p.2, zeroScalar p.2)).map Prod.fst := by
      rw [hinit flds]
      intro hm
      obtain ⟨p, hp, hpk⟩ := List.mem_map.mp hm
      exact hnd p hp hpk
    obtain ⟨e, he⟩ := applyStructItems_badkey kvs _ hkv hknot
    exact ⟨e, by simp [decodeVal, htype, hsd, he, Bind.bind, Except.bind]⟩

/-- Witness for C2: the characterisation applied to one accepted and one
rejected identification reply. -/
theorem C2_check_idn_witness :
    check_idn "ISSE,SECoP,2018-11-07,v1.0" = .ok ()
    ∧ check_idn "FOO,SECoP,a,b" = .error (.secopError
        "Device responded to *IDN? with bad manufacturer string FOO. Not a SECoP device?") := by
  refine ⟨(C2_check_idn_characterisation "ISSE,SECoP,2018-11-07,v1.0").1.mpr
    ⟨rfl, Or.inr rfl, rfl⟩, ?_⟩
  exact (C2_check_idn_characterisation "FOO,SECoP,a,b").2.2.1
    "FOO" "SECoP" "a" "b" rfl (by decide) (by decide)

/-- Witness for C3: a made-up datainfo type is a hard error, both for the
single accessible and for the module containing it. -/
theorem C3_unsupported_dtype_witness :
    processAccessible {} "m" "a" { datainfo := { type := "matrix" } } =
      .error (.secopError "Unsupported secop data type matrix")
    ∧ ((initialiseModule {} "m"
        ⟨[("a", { datainfo := { type := "matrix" } })]⟩).2).isSome = true := by
  have h := C3_unsupported_dtype_hard_error {} "m" "a"
    { datainfo := { type := "matrix" } } (by decide)
  exact ⟨h.1, h.2 ⟨[("a", { datainfo := { type := "matrix" } })]⟩
    (List.mem_singleton.mpr rfl) (by decide)⟩

/-- Witness for C4: a skipped module never appears among sub controllers,
a skipped accessible never appears among attributes, and a skipped
accessible with a bad datainfo type is simply dropped. -/
theorem C4_quirks_skip_witness :
    "sk" ∉ (initialiseNode { skip_modules := ["sk"] }
        [("sk", ⟨[("x", { datainfo := { type := "bad" } })]⟩),
         ("ok", ⟨[("b", { datainfo := { type := "bool" } })]⟩)]).1.map Prod.fst
    ∧ "hidden" ∉ (initialiseModule { skip_accessibles := [("m", "hidden")] } "m"
        ⟨[("hidden", { datainfo := { type := "bad" } }),
          ("b", { datainfo := { type := "bool" } })]⟩).1.map Prod.fst
    ∧ initModuleAux { skip_accessibles := [("m", "hidden")] } "m"
        [("hidden", { datainfo := { type := "bad" } })] =
      initModuleAux { skip_accessibles := [("m", "hidden")] } "m" [] :=
  ⟨C4_quirks_skip.1 _ _ _ (by decide),
   C4_quirks_skip.2.1 _ _ _ _ (by decide),
   C4_quirks_skip.2.2 _ _ _ _ _ (by decide)⟩

/-- Witness for C5: a nested struct member type is rejected by the dtype
mapping and by array decoding, while the int member type is accepted. -/
theorem C5_array_member_types_witness :
    secop_dtype_to_numpy_dtype ⟨"struct", none⟩ =
      .error (.secopError "Cannot handle SECoP dtype struct within array/struct/tuple")
    ∧ decodeVal (.num 1) { type := "array", arrayMember := some ⟨"struct", none⟩ } =
      .error (.secopError "Cannot handle SECoP dtype struct within array/struct/tuple")
    ∧ ∃ dt, secop_dtype_to_numpy_dtype ⟨"int", none⟩ = .ok dt := by
  have h := C5_array_member_types.1 ⟨"struct", none⟩ (by decide)
  exact ⟨h.1, h.2 _ (.num 1) rfl rfl,
    C5_array_member_types.2 ⟨"int", none⟩ (by decide)⟩

/-- Witness for C7: precision 42 from the percent-dot-42-f fmtstr, and
the default 6 for an absent fmtstr and for a non-matching shape. -/
theorem C7_registered_precision_witness :
    registeredPrec (some "%.42f") = .ok 42
    ∧ registeredPrec none = .ok 6
    ∧ registeredPrec (some "%.5g") = .ok 6 := by
  refine ⟨?_, C7_registered_precision.2.1,
    C7_registered_precision.2.2 "%.5g" (Or.inr (by decide))⟩
  exact C7_registered_precision.1 ['4', '2'] (by decide) (by decide)

/-- Witness for C8: ping with a dead connection and a failing reconnect
performs exactly one connect call and lets nothing escape. -/
theorem C8_ping_witness :
    (ping ⟨.error .connectionError, .error .connectionError, .ok ()⟩).2 = none
    ∧ ((ping ⟨.error .connectionError, .error .connectionError, .ok ()⟩).1.filter
        (fun c => decide (c = Call.connectCall))).length = 1
    ∧ (ping ⟨.error .connectionError, .error .connectionError, .ok ()⟩).1 =
        [.pingQuery, .connectCall] := by
  have h := C8_ping_one_reconnect_no_escape
    ⟨.error .connectionError, .error .connectionError, .ok ()⟩ rfl
  exact ⟨h.1, h.2.1, h.2.2.2 .connectionError rfl⟩

/-- Witness for C9: a successful scaled read, an absorbed connectivity
failure, and a successful write, none of which let an exception escape. -/
theorem C9_update_send_witness :
    (update (.ok "reply mod:acc [42, null]") "mod" "acc"
        { type := "scaled", scale := some 47 } none).escaped = none
    ∧ update (.error .connectionError) "mod" "acc" { type := "int" }
        (some (.plain (.bool true))) =
      { stored := some (.plain (.bool true)), escaped := none, logged := false }
    ∧ (send (.ok "changed mod:acc [5]") "mod" "acc" { type := "int" }
        (.plain (.num 5))).escaped = none :=
  ⟨(C9_update_send_no_escape.1 _ "mod" "acc" _ none).1,
   (C9_update_send_no_escape.1 _ "mod" "acc" _ _).2.1 rfl,
   (C9_update_send_no_escape.2 _ "mod" "acc" _ _).1⟩

/-- Witness for C10: a two-member struct decoded from a map carrying only
its int member, and a decode error on an undeclared key. -/
theorem C10_struct_decode_witness :
    (∃ res, decodeVal (.obj [("b", Json.num 5)])
        { type := "struct",
          structMembers := [("a", ⟨"double", none⟩), ("b", ⟨"int", none⟩)] } =
        .ok (.npRec res) ∧
        List.Forall₂ (fun (p : String × NpDtype) (r : String × NpDtype × Scalar) =>
          r.1 = p.1 ∧ r.2.1 = p.2 ∧
          (∀ v, (p.1, v) ∈ [("b", Json.num 5)] → coerceScalar p.2 v = .ok r.2.2) ∧
          (p.1 ∉ ([("b", Json.num 5)].map Prod.fst) → r.2.2 = zeroScalar p.2))
        [("a", NpDtype.float64), ("b", NpDtype.int32)] res)
    ∧ (∃ e, decodeVal (.obj [("zz", Json.num 5)])
        { type := "struct",
          structMembers := [("a", ⟨"double", none⟩), ("b", ⟨"int", none⟩)] } =
        .error e) := by
  constructor
  · refine C10_struct_decode.1 _ [("b", Json.num 5)]
      [("a", NpDtype.float64), ("b", NpDtype.int32)] rfl rfl (by decide) (by decide) ?_
    intro kv hkv
    rcases List.mem_cons.mp hkv with rfl | h
    · exact ⟨("b", NpDtype.int32), by decide, rfl, by decide⟩
    · simp at h
  · exact C10_struct_decode.2 _ [("zz", Json.num 5)]
      [("a", NpDtype.float64), ("b", NpDtype.int32)] "zz" (Json.num 5) rfl rfl
      (List.mem_singleton.mpr rfl) (by decide)

end FastcsSecop
